import Mathlib

/-!
Shallow embedding of the configuration-resolution engine of the collector
agent (src/collector/lib/CollectorConfig.cpp), together with models of the
collaborators whose code is not part of the visible sources (the typed
environment accessors of EnvVar.h, the network-prefix parser IPNet::parse,
the host-heuristics decision record, and the default values from the
CollectorConfig header).  C++ `double` values are modelled as exact
rationals (IEEE rounding is abstracted away); machine integers are
modelled as unbounded `Int` (no claim below exercises 64-bit overflow).
-/

namespace Collector

/-! ## Character-level helpers for the C string-to-number conversions -/

/-- Numeric value of a decimal digit character; 0 for non-digits. -/
def digitVal (c : Char) : Nat := c.toNat - 48

/-- Accumulate a run of leading decimal digits.  Returns the accumulated
value, the number of digits consumed, and the rest of the input. -/
def takeDigits (acc n : Nat) : List Char → Nat × Nat × List Char
  | [] => (acc, n, [])
  | c :: cs =>
      if c.isDigit then takeDigits (acc * 10 + digitVal c) (n + 1) cs
      else (acc, n, c :: cs)

/-- Consume an optional leading sign, returning whether it was a minus. -/
def takeSign : List Char → Bool × List Char
  | '-' :: cs => (true, cs)
  | '+' :: cs => (false, cs)
  | cs => (false, cs)

/-- Whitespace characters skipped by the C strtod/strtol family. -/
def isSpaceChar (c : Char) : Bool :=
  c = ' ' ∨ c = '\t' ∨ c = '\n' ∨ c = '\x0d' ∨ c = '\x0b' ∨ c = '\x0c'

/-- Drop the leading whitespace accepted by strtod/strtol. -/
def skipWs (cs : List Char) : List Char := cs.dropWhile isSpaceChar

/-- Model of the C strtod decimal syntax (used by both `atof` and
`std::stod`): optional whitespace, optional sign, a digit run with an
optional fractional part (at least one digit overall), and an optional
exponent part.  The result is the exact value as a pair
(mantissa, power-of-ten exponent): the parsed value is
mantissa * 10 ^ exponent.  Hexadecimal floats and inf/nan forms are not
modelled (no configuration value below uses them). -/
def parseDecSig (cs : List Char) : Option (Int × Int) :=
  let cs := skipWs cs
  let (neg, cs) := takeSign cs
  let (ip, ni, cs) := takeDigits 0 0 cs
  let (fp, nf, cs) :=
    match cs with
    | '.' :: cs2 => takeDigits 0 0 cs2
    | _ => (0, 0, cs)
  if ni + nf = 0 then none
  else
    let mant : Int := ip * 10 ^ nf + fp
    let mant : Int := if neg then -mant else mant
    let fexp : Int := -(nf : Int)
    match cs with
    | c :: rest =>
        if c = 'e' ∨ c = 'E' then
          let (eneg, rest2) := takeSign rest
          let (ev, ne, _) := takeDigits 0 0 rest2
          if ne = 0 then some (mant, fexp)
          else some (mant, fexp + (if eneg then -(ev : Int) else (ev : Int)))
        else some (mant, fexp)
    | [] => some (mant, fexp)

/-- The exact rational value of a parsed decimal significand. -/
def decToRat (mant fexp : Int) : ℚ := (mant : ℚ) * 10 ^ fexp

/-- Model of `std::stod`: `none` models the std::invalid_argument throw on
inputs with no leading decimal number. -/
def stod (s : String) : Option ℚ :=
  (parseDecSig s.data).map fun p => decToRat p.1 p.2

/-- Model of C `atof`: same syntax as strtod, but a failed conversion
silently yields 0.0 instead of an error. -/
def atof (s : String) : ℚ :=
  match parseDecSig s.data with
  | some p => decToRat p.1 p.2
  | none => 0

/-- Exact integer value of `static_cast<int64_t>(x * 1000000)` applied to
the result of `atof`, computed from the parsed significand: multiply by
10^6 and truncate toward zero. -/
def truncMicros (mant fexp : Int) : Int :=
  let k := fexp + 6
  if 0 ≤ k then mant * 10 ^ k.toNat
  else mant.tdiv (10 ^ (-k).toNat)

/-- Model of `static_cast<int64_t>(atof(s) * 1000000)` from
CollectorConfig.cpp line 195: a failed conversion yields 0. -/
def atofMicros (s : String) : Int :=
  match parseDecSig s.data with
  | some p => truncMicros p.1 p.2
  | none => 0

/-- Model of `std::stoi`: optional whitespace, optional sign, at least one
decimal digit; values outside the int range throw (std::out_of_range),
modelled as `none` like std::invalid_argument, since both propagate. -/
def stoi (s : String) : Option Int :=
  let cs := skipWs s.data
  let (neg, cs) := takeSign cs
  let (v, n, _) := takeDigits 0 0 cs
  if n = 0 then none
  else
    let val : Int := if neg then -(v : Int) else (v : Int)
    if val < -2147483648 ∨ 2147483647 < val then none else some val

/-! ## Splitting

`std::getline(stream, tok, sep)` token iteration (quantile parsing) and
the comma-splitting of list-valued environment variables both split a
string on every occurrence of a separator character, keeping empty
tokens. -/

/-- Split a character list on a separator, keeping empty fields. -/
def splitCharAux (sep : Char) : List Char → List Char → List (List Char)
  | [], acc => [acc.reverse]
  | c :: cs, acc =>
      if c = sep then acc.reverse :: splitCharAux sep cs []
      else splitCharAux sep cs (c :: acc)

/-- Split a string on a separator character, keeping empty fields.  On any
input without a trailing separator this agrees with the
`while (stream.good()) std::getline(stream, tok, sep)` loop of
CollectorConfig.cpp lines 235-245; with a trailing separator the loop
additionally reads one final empty token, which the split also yields. -/
def splitChar (sep : Char) (s : String) : List String :=
  (splitCharAux sep s.data []).map List.asString

/-! ## Network-prefix values and their textual form

The collector's `IPNet` type and its `IPNet::parse` function live outside
the visible sources; they are modelled here from §4.3 of the
specification: `parse(text) -> prefix | failure`, accepting IPv4 and IPv6
CIDR notation, rejecting the empty string, and reporting failure as a
recoverable result. -/

/-- A parsed network value: an address (as its numeric value) together
with a mask length.  Modelled from the spec: the repository's structured
network value produced by the network-prefix parser. -/
inductive IPNet where
  | v4 (addr : Nat) (bits : Nat)
  | v6 (addr : Nat) (bits : Nat)
deriving DecidableEq, Repr

/-- Parse a decimal token that is nothing but digits (no sign, no blanks). -/
def parseDecNat (cs : List Char) : Option Nat :=
  if cs.isEmpty then none
  else if cs.all Char.isDigit then
    some (cs.foldl (fun a c => a * 10 + digitVal c) 0)
  else none

/-- Parse one dotted-quad octet: pure digits, at most 3, value at most 255. -/
def parseOctet (cs : List Char) : Option Nat :=
  if cs.length ≤ 3 then
    match parseDecNat cs with
    | some v => if v ≤ 255 then some v else none
    | none => none
  else none

/-- Parse an IPv4 address in dotted-quad notation to its 32-bit value. -/
def parseIPv4 (cs : List Char) : Option Nat :=
  match (splitCharAux '.' cs []).mapM parseOctet with
  | some [a, b, c, d] => some (((a * 256 + b) * 256 + c) * 256 + d)
  | _ => none

/-- Value of a hexadecimal digit character, if it is one. -/
def hexVal (c : Char) : Option Nat :=
  if c.isDigit then some (c.toNat - 48)
  else if 'a' ≤ c ∧ c ≤ 'f' then some (c.toNat - 87)
  else if 'A' ≤ c ∧ c ≤ 'F' then some (c.toNat - 55)
  else none

/-- Parse one IPv6 group: 1 to 4 hexadecimal digits. -/
def parseHexGroup (cs : List Char) : Option Nat :=
  if cs.isEmpty ∨ 4 < cs.length then none
  else (cs.mapM hexVal).map fun ds => ds.foldl (fun a d => a * 16 + d) 0

/-- Split at the first occurrence of a double colon, if any. -/
def splitDoubleColon : List Char → Option (List Char × List Char)
  | ':' :: ':' :: rest => some ([], rest)
  | c :: rest => (splitDoubleColon rest).map fun p => (c :: p.1, p.2)
  | [] => none

/-- Whether a character list still contains a double colon. -/
def hasDoubleColon : List Char → Bool
  | ':' :: ':' :: _ => true
  | _ :: cs => hasDoubleColon cs
  | [] => false

/-- Parse a colon-separated run of IPv6 groups; the empty text denotes an
empty run (as on either side of a compressing double colon). -/
def parseGroupRun (cs : List Char) : Option (List Nat) :=
  if cs.isEmpty then some []
  else (splitCharAux ':' cs []).mapM parseHexGroup

/-- Numeric value of a full list of IPv6 groups. -/
def groupsToNat (gs : List Nat) : Nat :=
  gs.foldl (fun a g => a * 65536 + g) 0

/-- Parse an IPv6 address, with at most one compressing double colon, to
its 128-bit value.  Embedded dotted-quad tails are not modelled. -/
def parseIPv6 (cs : List Char) : Option Nat :=
  match splitDoubleColon cs with
  | none =>
      match parseGroupRun cs with
      | some gs => if gs.length = 8 then some (groupsToNat gs) else none
      | none => none
  | some (l, r) =>
      if hasDoubleColon r then none
      else
        match parseGroupRun l, parseGroupRun r with
        | some gl, some gr =>
            if gl.length + gr.length ≤ 7 then
              some (groupsToNat
                (gl ++ List.replicate (8 - gl.length - gr.length) 0 ++ gr))
            else none
        | _, _ => none

/-- Modelled from the spec: the network-prefix parser (§4.3),
`IPNet::parse`, whose code is outside the visible sources.  It accepts
IPv4 and IPv6 CIDR notation (a bare address stands for a full-length
mask), rejects the empty string, and signals failure as `none`. -/
def IPNet.parse (s : String) : Option IPNet :=
  if s.isEmpty then none
  else
    match splitCharAux '/' s.data [] with
    | [addr] =>
        match parseIPv4 addr with
        | some a => some (.v4 a 32)
        | none => (parseIPv6 addr).map (.v6 · 128)
    | [addr, len] =>
        match parseDecNat len with
        | none => none
        | some n =>
            match parseIPv4 addr with
            | some a => if n ≤ 32 then some (.v4 a n) else none
            | none =>
                match parseIPv6 addr with
                | some a => if n ≤ 128 then some (.v6 a n) else none
                | none => none
    | _ => none

/-! ## Typed environment accessors

The process environment is a partial map from variable names to strings.
`EnvVar.h` is outside the visible sources; the accessors are modelled from
§4.1 of the specification: read once, fall back to the compiled default on
absence or (for booleans) parse failure; list values are comma-delimited. -/

/-- The process environment at startup. -/
def Env : Type := String → Option String

/-- Modelled from the spec: boolean environment text accepted by the
typed accessor; anything else is a parse failure. -/
def parseBoolStr (s : String) : Option Bool :=
  if s = "true" then some true
  else if s = "false" then some false
  else none

/-- Modelled from the spec: `BoolEnvVar` (EnvVar.h, outside the visible
sources): the default on absence or parse failure, the parsed value
otherwise. -/
def boolEnvVar (env : Env) (name : String) (dflt : Bool) : Bool :=
  match env name with
  | none => dflt
  | some s => (parseBoolStr s).getD dflt

/-- Modelled from the spec: `StringListEnvVar` (EnvVar.h, outside the
visible sources): the default list on absence, the comma-split value
otherwise. -/
def stringListEnvVar (env : Env) (name : String) (dflt : List String) :
    List String :=
  match env name with
  | none => dflt
  | some s => splitChar ',' s

/-! ## The configuration record

Only the fields that the resolution logic below reads or writes are
carried; fields whose handling is a plain independent boolean copy from an
environment variable (disable_network_flows_, curl_verbose_, ...) and the
sinsp buffer tunables are projected away, as no property below concerns
them. -/

/-- The data-collection mechanism enum (CollectionMethod.h): never an
arbitrary string past resolution. -/
inductive CollectionMethod where
  | EBPF
  | CORE_BPF
deriving DecidableEq, Repr

/-- The configuration record built by `CollectorConfig::InitCollectorConfig`.
`host_config` holds the host-heuristics decision: `some m` models
`HasCollectionMethod() = true` with `GetCollectionMethod() = m`, `none`
models a decision that declines to specify a method. -/
structure CollectorConfig where
  hostname : String
  scrape_interval : Int
  turn_off_scrape : Bool
  collection_method : CollectionMethod
  enable_afterglow : Bool
  afterglow_period_micros : Int
  connection_stats_quantiles : List ℚ
  connection_stats_error : ℚ
  connection_stats_window : Int
  ignored_networks : List IPNet
  host_config : Option CollectionMethod

/-- The user-supplied structured argument blob, as the resolver reads it
through `CollectorArgs` (outside the visible sources, modelled from §4.2
and the accesses in CollectorConfig.cpp): each field of the JSON-like
config may be absent; `collectionMethod` is the out-of-band
collection-method selector string returned by
`CollectorArgs::GetCollectionMethod`, empty when unset.  The `logLevel`,
`syscalls` and `tlsConfig` fields only drive logging or are stored
verbatim; they are projected away here. -/
structure Args where
  scrapeInterval : Option String
  turnOffScrape : Option Bool
  collectionMethod : String

/-! ## Resolution -/

/-- Errors that abort resolution: the deliberate `CLOG(FATAL)` on an empty
hostname (CollectorConfig.cpp lines 78-80), and the uncaught exception
thrown by `std::stoi` on a malformed `scrapeInterval` (line 103). -/
inductive InitError where
  | FatalEmptyHostname
  | ScrapeIntervalParse
deriving DecidableEq, Repr

/-- The maximum afterglow period: 5 minutes in microseconds
(CollectorConfig.cpp line 198). -/
def maxAfterglowPeriodMicros : Int := 300000000

/-- Embedding of `CollectorConfig::HandleAfterglowEnvVars`
(CollectorConfig.cpp lines 189-225): force-disable when the enablement
variable resolves false; overwrite the period with the converted
`ROX_AFTERGLOW_PERIOD` value when that variable is present; clamp to
the 5-minute maximum; finally, if the flag is still on but the period is
not positive, force the final state to disabled. -/
def HandleAfterglowEnvVars (env : Env) (c : CollectorConfig) :
    CollectorConfig :=
  let c :=
    if ¬ boolEnvVar env "ROX_ENABLE_AFTERGLOW" true then
      { c with enable_afterglow := false }
    else c
  let c :=
    match env "ROX_AFTERGLOW_PERIOD" with
    | some s => { c with afterglow_period_micros := atofMicros s }
    | none => c
  let c :=
    if maxAfterglowPeriodMicros < c.afterglow_period_micros then
      { c with afterglow_period_micros := maxAfterglowPeriodMicros }
    else c
  if c.enable_afterglow ∧ 0 < c.afterglow_period_micros then c
  else if ¬ c.enable_afterglow then c
  else { c with enable_afterglow := false }

/-- The `while (quantiles.good()) getline; try stod; push_back; catch log`
loop of `HandleConnectionStatsEnvVars` (CollectorConfig.cpp lines
235-245), over the token list: successfully parsed tokens are appended in
order, failing tokens are skipped. -/
def quantilesLoop (acc : List ℚ) : List String → List ℚ
  | [] => acc
  | t :: ts =>
      match stod t with
      | some v => quantilesLoop (acc ++ [v]) ts
      | none => quantilesLoop acc ts

/-- Embedding of `CollectorConfig::HandleConnectionStatsEnvVars`
(CollectorConfig.cpp lines 227-269): install the default quantile list,
then, when the quantiles variable is present, clear the list and refill
it from the comma-split tokens; then resolve the error tolerance and the
aggregation window, each keeping its default on parse failure. -/
def HandleConnectionStatsEnvVars (env : Env) (c : CollectorConfig) :
    CollectorConfig :=
  let c := { c with connection_stats_quantiles :=
    [decToRat 50 (-2), decToRat 90 (-2), decToRat 95 (-2)] }
  let c :=
    match env "ROX_COLLECTOR_CONNECTION_STATS_QUANTILES" with
    | some v =>
        { c with connection_stats_quantiles :=
            quantilesLoop [] (splitChar ',' v) }
    | none => c
  let c := { c with connection_stats_error := decToRat 1 (-2) }
  let c :=
    match env "ROX_COLLECTOR_CONNECTION_STATS_ERROR" with
    | some v =>
        match stod v with
        | some e => { c with connection_stats_error := e }
        | none => c
    | none => c
  let c := { c with connection_stats_window := 60 }
  match env "ROX_COLLECTOR_CONNECTION_STATS_WINDOW" with
  | some v =>
      match stoi v with
      | some w => { c with connection_stats_window := w }
      | none => c
  | none => c

/-- One step of the ignored-networks `std::for_each` lambda
(CollectorConfig.cpp lines 159-172): return early on an empty entry,
append a successfully parsed prefix, drop a failing one. -/
def ignoredNetworksStep (acc : List IPNet) (s : String) : List IPNet :=
  if s.isEmpty then acc
  else
    match IPNet.parse s with
    | some net => acc ++ [net]
    | none => acc

/-- The whole ignored-networks traversal (CollectorConfig.cpp lines
159-172) over the entries of the list-valued environment variable. -/
def processIgnoredNetworks (entries : List String) : List IPNet :=
  entries.foldl ignoredNetworksStep []

/-- The compiled default of `ROX_IGNORE_NETWORKS` (CollectorConfig.cpp
line 27): the IPv4 and IPv6 link-local prefixes. -/
def ignoredNetworksDefault : List String := ["169.254.0.0/16", "fe80::/10"]

/-- The ignored-network list as resolved by `InitCollectorConfig`: the
traversal of lines 159-172 applied to the value of the list-typed
`ROX_IGNORE_NETWORKS` environment variable. -/
def resolvedIgnoredNetworks (env : Env) : List IPNet :=
  processIgnoredNetworks
    (stringListEnvVar env "ROX_IGNORE_NETWORKS" ignoredNetworksDefault)

/-- Embedding of the collection-method branch of `InitCollectorConfig`
(CollectorConfig.cpp lines 127-140): a non-empty selector maps "ebpf" to
EBPF, "core_bpf" to CORE_BPF, and any other value to CORE_BPF (with a
warning); an empty selector leaves the previous value in place. -/
def resolveCollectionMethod (cm : String) (prev : CollectionMethod) :
    CollectionMethod :=
  if 0 < cm.length then
    if cm = "ebpf" then .EBPF
    else if cm = "core_bpf" then .CORE_BPF
    else .CORE_BPF
  else prev

/-- The argument-blob writes that follow the scrapeInterval parse
(CollectorConfig.cpp lines 107-140): `turnOffScrape`, then the
collection-method selector. -/
def applyArgsTail (a : Args) (c : CollectorConfig) : CollectorConfig :=
  let c :=
    match a.turnOffScrape with
    | some b => { c with turn_off_scrape := b }
    | none => c
  { c with collection_method :=
      resolveCollectionMethod a.collectionMethod c.collection_method }

/-- The argument-blob pass of `InitCollectorConfig` (CollectorConfig.cpp
lines 86-145): `scrapeInterval` goes through `std::stoi`, whose exception
on malformed input propagates out of resolution before any later write
runs; otherwise `turnOffScrape` and the collection-method selector are
applied in order.  (The `logLevel` field only configures logging, and
`syscalls`/`tlsConfig` are stored verbatim; they are projected away.) -/
def applyArgs (a : Args) (c : CollectorConfig) :
    Except InitError CollectorConfig :=
  match a.scrapeInterval with
  | some s =>
      match stoi s with
      | some n => .ok (applyArgsTail a { c with scrape_interval := n })
      | none => .error .ScrapeIntervalParse
  | none => .ok (applyArgsTail a c)

/-- The environment-variable passes that follow the argument blob
(CollectorConfig.cpp lines 159-184): the ignored-networks traversal,
then the afterglow and connection-statistics sub-resolutions.  (The
sinsp-buffer pass of line 184 writes only the three projected-away
buffer tunables.) -/
def finishEnvPasses (env : Env) (c : CollectorConfig) : CollectorConfig :=
  let c := { c with ignored_networks := resolvedIgnoredNetworks env }
  let c := HandleAfterglowEnvVars env c
  HandleConnectionStatsEnvVars env c

/-- The final step of `InitCollectorConfig` (CollectorConfig.cpp line
186): storing the host-heuristics decision writes only `host_config`. -/
def storeHostConfig (c : CollectorConfig) (hc : Option CollectionMethod) :
    CollectorConfig :=
  { c with host_config := hc }

/-- Embedding of `CollectorConfig::InitCollectorConfig`
(CollectorConfig.cpp lines 65-187).  `hostname` is the value returned by
the platform lookup `GetHostname()`; `heuristics` is the external
host-heuristics evaluator `ProcessHostHeuristics`, a function of the
configuration built so far; `c` is the default-constructed record
(constructor, lines 58-63, plus the header's member initializers).  An
empty hostname is the deliberately fatal condition; a malformed
`scrapeInterval` propagates.  On success the result is the final record,
with the heuristics decision stored in `host_config`. -/
def InitCollectorConfig (env : Env) (hostname : String) (args : Option Args)
    (heuristics : CollectorConfig → Option CollectionMethod)
    (c : CollectorConfig) : Except InitError CollectorConfig :=
  if hostname.isEmpty then .error .FatalEmptyHostname
  else
    let c := { c with hostname := hostname }
    match (match args with | some a => applyArgs a c | none => .ok c) with
    | .error e => .error e
    | .ok c =>
        let c := finishEnvPasses env c
        .ok (storeHostConfig c (heuristics c))

/-- Embedding of the read accessor `CollectorConfig::GetCollectionMethod`
(CollectorConfig.cpp lines 315-320): consult the host-heuristics decision
first, fall back to the resolved field only when the decision declines to
specify a method. -/
def CollectorConfig.GetCollectionMethod (c : CollectorConfig) :
    CollectionMethod :=
  match c.host_config with
  | some m => m
  | none => c.collection_method

/-! ## Concrete inputs

Concrete environments and a concrete default-constructed record, used to
instantiate the theorems below.  The compiled defaults of the scrape
interval, the collection method and the afterglow period are build
constants from the header (outside the visible sources); representative
values are used for them, while `enable_afterglow` defaults to true as
§4.6 and §8 of the specification require. -/

/-- A representative default-constructed configuration record. -/
def defaultConfig : CollectorConfig where
  hostname := ""
  scrape_interval := 30
  turn_off_scrape := false
  collection_method := .CORE_BPF
  enable_afterglow := true
  afterglow_period_micros := 20000000
  connection_stats_quantiles := []
  connection_stats_error := 0
  connection_stats_window := 0
  ignored_networks := []
  host_config := none

/-- The empty process environment. -/
def emptyEnv : Env := fun _ => none

/-- An environment with only ROX_AFTERGLOW_PERIOD=400. -/
def envAfterglow400 : Env := fun n =>
  if n = "ROX_AFTERGLOW_PERIOD" then some "400" else none

/-- An environment with ROX_AFTERGLOW_PERIOD=0 and the enablement
variable explicitly true. -/
def envAfterglowZero : Env := fun n =>
  if n = "ROX_AFTERGLOW_PERIOD" then some "0"
  else if n = "ROX_ENABLE_AFTERGLOW" then some "true"
  else none

/-- An environment with a malformed ROX_AFTERGLOW_PERIOD. -/
def envAfterglowBad : Env := fun n =>
  if n = "ROX_AFTERGLOW_PERIOD" then some "abc" else none

/-- An environment with the quantiles variable of the worked spec
example. -/
def envQuantilesMixed : Env := fun n =>
  if n = "ROX_COLLECTOR_CONNECTION_STATS_QUANTILES" then some "0.5,bad,0.99"
  else none

/-- An environment supplying a quantile outside the unit interval. -/
def envQuantilesLarge : Env := fun n =>
  if n = "ROX_COLLECTOR_CONNECTION_STATS_QUANTILES" then some "2.5" else none

/-- An environment with the ignored-networks variable of the worked spec
example. -/
def envIgnoreNets : Env := fun n =>
  if n = "ROX_IGNORE_NETWORKS" then
    some "169.254.0.0/16,not-a-cidr,fe80::/10"
  else none

/-- The numeric value of the IPv6 link-local prefix fe80::. -/
def fe80Val : Nat := 65152 * 2 ^ 112

/-! ## Helper lemmas -/

/-- The quantile try/catch loop appends exactly the successfully parsed
tokens, in order. -/
theorem quantilesLoop_eq (ts : List String) (acc : List ℚ) :
    quantilesLoop acc ts = acc ++ ts.filterMap stod := by
  induction ts generalizing acc with
  | nil => simp [quantilesLoop]
  | cons t ts ih =>
      cases h : stod t <;> simp [quantilesLoop, h, ih]

/-- The ignored-networks fold keeps exactly the parseable non-empty
entries, in order. -/
theorem foldl_ignoredNetworksStep (entries : List String)
    (acc : List IPNet) :
    entries.foldl ignoredNetworksStep acc =
      acc ++ (entries.filter fun s => !s.isEmpty).filterMap IPNet.parse := by
  induction entries generalizing acc with
  | nil => simp
  | cons e es ih =>
      by_cases he : e.isEmpty
      · simp [ignoredNetworksStep, he, ih]
      · cases h : IPNet.parse e <;>
          simp [ignoredNetworksStep, he, h, ih]

/-- The afterglow sub-resolution writes no field other than the afterglow
flag and period. -/
theorem afterglow_scrape (env : Env) (c : CollectorConfig) :
    (HandleAfterglowEnvVars env c).scrape_interval = c.scrape_interval := by
  simp only [HandleAfterglowEnvVars]
  repeat' split <;> try rfl

/-- The afterglow sub-resolution leaves the collection method in place. -/
theorem afterglow_method (env : Env) (c : CollectorConfig) :
    (HandleAfterglowEnvVars env c).collection_method =
      c.collection_method := by
  simp only [HandleAfterglowEnvVars]
  repeat' split <;> try rfl

/-- The afterglow sub-resolution leaves the ignored networks in place. -/
theorem afterglow_networks (env : Env) (c : CollectorConfig) :
    (HandleAfterglowEnvVars env c).ignored_networks =
      c.ignored_networks := by
  simp only [HandleAfterglowEnvVars]
  repeat' split <;> try rfl

/-- The connection-statistics sub-resolution leaves the scrape interval
in place. -/
theorem connstats_scrape (env : Env) (c : CollectorConfig) :
    (HandleConnectionStatsEnvVars env c).scrape_interval =
      c.scrape_interval := by
  simp only [HandleConnectionStatsEnvVars]
  repeat' split <;> try rfl

/-- The connection-statistics sub-resolution leaves the collection method
in place. -/
theorem connstats_method (env : Env) (c : CollectorConfig) :
    (HandleConnectionStatsEnvVars env c).collection_method =
      c.collection_method := by
  simp only [HandleConnectionStatsEnvVars]
  repeat' split <;> try rfl

/-- The connection-statistics sub-resolution leaves the ignored networks
in place. -/
theorem connstats_networks (env : Env) (c : CollectorConfig) :
    (HandleConnectionStatsEnvVars env c).ignored_networks =
      c.ignored_networks := by
  simp only [HandleConnectionStatsEnvVars]
  repeat' split <;> try rfl

/-- The trailing argument-blob writes leave the scrape interval in
place and resolve the collection method from the selector string and the
previous value. -/
theorem applyArgsTail_fields (a : Args) (c : CollectorConfig) :
    (applyArgsTail a c).scrape_interval = c.scrape_interval ∧
      (applyArgsTail a c).collection_method =
        resolveCollectionMethod a.collectionMethod c.collection_method := by
  simp only [applyArgsTail]
  split <;> simp

/-- The argument-blob pass can fail only through the scrapeInterval
integer parse, never with the hostname-fatal error. -/
theorem applyArgs_ne_fatal (a : Args) (c : CollectorConfig) :
    applyArgs a c ≠ .error .FatalEmptyHostname := by
  simp only [applyArgs]
  repeat' split <;> simp

/-- The argument-blob pass resolves the collection method from the
selector string and the previous value. -/
theorem applyArgs_method (a : Args) (c c2 : CollectorConfig)
    (h : applyArgs a c = .ok c2) :
    c2.collection_method =
      resolveCollectionMethod a.collectionMethod c.collection_method := by
  cases hs : a.scrapeInterval with
  | none =>
      simp only [applyArgs, hs, Except.ok.injEq] at h
      subst h
      exact (applyArgsTail_fields a _).2
  | some s =>
      cases hn : stoi s with
      | none => simp [applyArgs, hs, hn] at h
      | some n =>
          simp only [applyArgs, hs, hn, Except.ok.injEq] at h
          subst h
          exact (applyArgsTail_fields a _).2

/-- The trailing environment passes leave the scrape interval and the
collection method in place, and set the ignored networks to the resolved
list. -/
theorem finishEnvPasses_fields (env : Env) (c : CollectorConfig) :
    (finishEnvPasses env c).scrape_interval = c.scrape_interval ∧
      (finishEnvPasses env c).collection_method = c.collection_method ∧
      (finishEnvPasses env c).ignored_networks =
        resolvedIgnoredNetworks env := by
  simp only [finishEnvPasses]
  refine ⟨?_, ?_, ?_⟩
  · rw [connstats_scrape, afterglow_scrape]
  · rw [connstats_method, afterglow_method]
  · rw [connstats_networks, afterglow_networks]

/-- Storing the heuristics decision changes no previously resolved
field. -/
theorem storeHostConfig_fields (c : CollectorConfig)
    (hc : Option CollectionMethod) :
    (storeHostConfig c hc).scrape_interval = c.scrape_interval ∧
      (storeHostConfig c hc).collection_method = c.collection_method ∧
      (storeHostConfig c hc).ignored_networks = c.ignored_networks ∧
      (storeHostConfig c hc).host_config = hc := by
  simp [storeHostConfig]

/-- Shape of a successful resolution: with a non-empty hostname and a
successful argument pass, `InitCollectorConfig` returns the record
produced by the environment passes, with the heuristics decision stored
last. -/
theorem init_ok_shape (env : Env) (h : String) (args : Option Args)
    (heur : CollectorConfig → Option CollectionMethod)
    (c c1 : CollectorConfig) (hh : ¬ h.isEmpty)
    (hstep : (match args with
              | some a => applyArgs a { c with hostname := h }
              | none => .ok { c with hostname := h }) = .ok c1) :
    InitCollectorConfig env h args heur c =
      .ok (storeHostConfig (finishEnvPasses env c1)
            (heur (finishEnvPasses env c1))) := by
  simp only [InitCollectorConfig, if_neg hh, hstep]

/-- A failing argument pass propagates its error out of resolution when
the hostname is non-empty. -/
theorem init_error_shape (env : Env) (h : String) (args : Option Args)
    (heur : CollectorConfig → Option CollectionMethod)
    (c : CollectorConfig) (e : InitError) (hh : ¬ h.isEmpty)
    (hstep : (match args with
              | some a => applyArgs a { c with hostname := h }
              | none => .ok { c with hostname := h }) = .error e) :
    InitCollectorConfig env h args heur c = .error e := by
  simp only [InitCollectorConfig, if_neg hh, hstep]

/-- A non-empty string has positive length. -/
theorem length_pos_of_ne_empty (s : String) (h : s ≠ "") : 0 < s.length := by
  rw [← String.length_data]
  cases hd : s.data with
  | nil => exact absurd (String.ext hd) h
  | cons c cs => simp [hd]

/-- The afterglow sub-resolution disables afterglow whenever the input
period (converted variable value, or the previous field when the variable
is absent) is not positive. -/
theorem afterglow_nonpos_disables (env : Env) (c : CollectorConfig)
    (hv : (match env "ROX_AFTERGLOW_PERIOD" with
           | some s => atofMicros s
           | none => c.afterglow_period_micros) ≤ 0) :
    (HandleAfterglowEnvVars env c).enable_afterglow = false := by
  cases hp : env "ROX_AFTERGLOW_PERIOD" with
  | some s =>
      simp only [hp] at hv
      have hnc : ¬ maxAfterglowPeriodMicros < atofMicros s := by
        simp only [maxAfterglowPeriodMicros]
        omega
      have hng : ¬ (0 : Int) < atofMicros s := by omega
      by_cases hf : boolEnvVar env "ROX_ENABLE_AFTERGLOW" true
      · by_cases he : c.enable_afterglow <;>
          simp [HandleAfterglowEnvVars, hp, hf, he, hnc, hng]
      · simp [HandleAfterglowEnvVars, hp, hf, hnc]
  | none =>
      simp only [hp] at hv
      have hnc : ¬ maxAfterglowPeriodMicros < c.afterglow_period_micros := by
        simp only [maxAfterglowPeriodMicros]
        omega
      have hng : ¬ (0 : Int) < c.afterglow_period_micros := by omega
      by_cases hf : boolEnvVar env "ROX_ENABLE_AFTERGLOW" true
      · by_cases he : c.enable_afterglow <;>
          simp [HandleAfterglowEnvVars, hp, hf, he, hnc, hng]
      · simp [HandleAfterglowEnvVars, hp, hf, hnc]

/-- When the period variable is present, the resolved afterglow period is
its converted value, clamped to the maximum. -/
theorem afterglow_period_of_env (env : Env) (c : CollectorConfig)
    (s : String) (hp : env "ROX_AFTERGLOW_PERIOD" = some s) :
    (HandleAfterglowEnvVars env c).afterglow_period_micros =
      if maxAfterglowPeriodMicros < atofMicros s then
        maxAfterglowPeriodMicros
      else atofMicros s := by
  simp only [HandleAfterglowEnvVars, hp]
  repeat' split <;> simp_all

/-! ## The claims -/

/-- Claim C1: for every resolved configuration, the collection-method
read accessor returns the host-heuristics decision's method whenever the
decision specifies one, and returns the resolved field only when the
decision declines to specify one; storing the decision does not mutate
the stored resolved field. -/
theorem claim_C1 (cfg : CollectorConfig) :
    (∀ m, cfg.host_config = some m → cfg.GetCollectionMethod = m) ∧
      (cfg.host_config = none →
        cfg.GetCollectionMethod = cfg.collection_method) ∧
      (∀ hc, (storeHostConfig cfg hc).collection_method =
        cfg.collection_method) := by
  refine ⟨?_, ?_, ?_⟩
  · intro m hm
    simp [CollectorConfig.GetCollectionMethod, hm]
  · intro hm
    simp [CollectorConfig.GetCollectionMethod, hm]
  · intro hc
    simp [storeHostConfig]

/-- Witness for C1 at the spec's worked example: a heuristics decision
specifying EBPF over a resolved CORE_BPF reads as EBPF. -/
theorem claim_C1_witness :
    (storeHostConfig
      { defaultConfig with collection_method := .CORE_BPF }
      (some .EBPF)).GetCollectionMethod = CollectionMethod.EBPF :=
  (claim_C1 _).1 .EBPF rfl

/-- Claim C4: resolution with an empty hostname is fatal and produces no
configuration, and with a non-empty hostname the fatal branch is never
taken. -/
theorem claim_C4 :
    (∀ (env : Env) (args : Option Args)
      (heur : CollectorConfig → Option CollectionMethod)
      (c : CollectorConfig),
      InitCollectorConfig env "" args heur c =
        .error InitError.FatalEmptyHostname) ∧
      (∀ (env : Env) (h : String) (args : Option Args)
        (heur : CollectorConfig → Option CollectionMethod)
        (c : CollectorConfig), ¬ h.isEmpty →
        InitCollectorConfig env h args heur c ≠
          .error InitError.FatalEmptyHostname) := by
  constructor
  · intro env args heur c
    have he : ("" : String).isEmpty = true := rfl
    simp [InitCollectorConfig, he]
  · intro env h args heur c hh
    cases args with
    | none =>
        rw [init_ok_shape env h none heur c _ hh rfl]
        simp
    | some a =>
        cases ha : applyArgs a { c with hostname := h } with
        | error e =>
            have hne := applyArgs_ne_fatal a { c with hostname := h }
            rw [init_error_shape env h (some a) heur c e hh ha]
            intro hcon
            exact hne (ha.trans hcon)
        | ok c1 =>
            rw [init_ok_shape env h (some a) heur c c1 hh ha]
            simp

/-- Witness for C4: with no arguments and an empty environment, the empty
hostname is fatal and the hostname "host" is not. -/
theorem claim_C4_witness :
    InitCollectorConfig emptyEnv "" none (fun _ => none) defaultConfig =
        .error InitError.FatalEmptyHostname ∧
      InitCollectorConfig emptyEnv "host" none (fun _ => none)
          defaultConfig ≠
        .error InitError.FatalEmptyHostname :=
  ⟨claim_C4.1 emptyEnv none (fun _ => none) defaultConfig,
    claim_C4.2 emptyEnv "host" none (fun _ => none) defaultConfig
      (by decide)⟩

/-- Claim C5: a present but unparseable scrapeInterval propagates as a
resolution failure, and a parseable one resolves to exactly the parsed
integer. -/
theorem claim_C5 (env : Env) (h : String)
    (heur : CollectorConfig → Option CollectionMethod)
    (c : CollectorConfig) (a : Args) (s : String) (hh : ¬ h.isEmpty)
    (hs : a.scrapeInterval = some s) :
    (stoi s = none →
      InitCollectorConfig env h (some a) heur c =
        .error InitError.ScrapeIntervalParse) ∧
      (∀ n, stoi s = some n →
        ∃ cfg, InitCollectorConfig env h (some a) heur c = .ok cfg ∧
          cfg.scrape_interval = n) := by
  constructor
  · intro hn
    exact init_error_shape env h (some a) heur c _ hh
      (by simp [applyArgs, hs, hn])
  · intro n hn
    have ha : applyArgs a { c with hostname := h } =
        .ok (applyArgsTail a
          { { c with hostname := h } with scrape_interval := n }) := by
      simp [applyArgs, hs, hn]
    refine ⟨_, init_ok_shape env h (some a) heur c _ hh ha, ?_⟩
    rw [(storeHostConfig_fields _ _).1, (finishEnvPasses_fields _ _).1,
      (applyArgsTail_fields _ _).1]

/-- Witness for C5: scrapeInterval "bad" fails resolution; "17" resolves
to 17. -/
theorem claim_C5_witness :
    InitCollectorConfig emptyEnv "host" (some ⟨some "bad", none, ""⟩)
        (fun _ => none) defaultConfig =
      .error InitError.ScrapeIntervalParse ∧
      ∃ cfg, InitCollectorConfig emptyEnv "host" (some ⟨some "17", none, ""⟩)
          (fun _ => none) defaultConfig = .ok cfg ∧
        cfg.scrape_interval = 17 :=
  ⟨(claim_C5 emptyEnv "host" (fun _ => none) defaultConfig _ "bad"
      (by decide) rfl).1 (by decide),
    (claim_C5 emptyEnv "host" (fun _ => none) defaultConfig _ "17"
      (by decide) rfl).2 17 (by decide)⟩

/-- Claim C10: a non-empty blob selector maps "ebpf" to EBPF, "core_bpf"
to CORE_BPF, and any other non-empty value to CORE_BPF; an empty selector
keeps the previously resolved value; and a successful resolution stores
exactly this mapping of the blob selector over the default. -/
theorem claim_C10 :
    (∀ p, resolveCollectionMethod "ebpf" p = CollectionMethod.EBPF) ∧
      (∀ p, resolveCollectionMethod "core_bpf" p =
        CollectionMethod.CORE_BPF) ∧
      (∀ cm p, cm ≠ "" → cm ≠ "ebpf" → cm ≠ "core_bpf" →
        resolveCollectionMethod cm p = CollectionMethod.CORE_BPF) ∧
      (∀ p, resolveCollectionMethod "" p = p) ∧
      (∀ (env : Env) (h : String) (a : Args)
        (heur : CollectorConfig → Option CollectionMethod)
        (c c2 : CollectorConfig),
        InitCollectorConfig env h (some a) heur c = .ok c2 →
        c2.collection_method =
          resolveCollectionMethod a.collectionMethod c.collection_method) := by
  refine ⟨?_, ?_, ?_, ?_, ?_⟩
  · intro p
    rfl
  · intro p
    rfl
  · intro cm p h0 h1 h2
    simp only [resolveCollectionMethod,
      if_pos (length_pos_of_ne_empty cm h0), if_neg h1, if_neg h2]
  · intro p
    rfl
  · intro env h a heur c c2 hinit
    by_cases hh : h.isEmpty
    · simp [InitCollectorConfig, hh] at hinit
    · cases ha : applyArgs a { c with hostname := h } with
      | error e =>
          rw [init_error_shape env h (some a) heur c e hh ha] at hinit
          cases hinit
      | ok c1 =>
          rw [init_ok_shape env h (some a) heur c c1 hh ha] at hinit
          cases hinit
          rw [(storeHostConfig_fields _ _).2.1,
            (finishEnvPasses_fields _ _).2.1,
            applyArgs_method a _ c1 ha]

/-- Witness for C10 at the spec's worked example: selector "foo" resolves
to CORE_BPF. -/
theorem claim_C10_witness :
    resolveCollectionMethod "foo" CollectionMethod.EBPF =
      CollectionMethod.CORE_BPF :=
  claim_C10.2.2.1 "foo" .EBPF (by decide) (by decide) (by decide)

/-- Claim C2: with the afterglow period variable converting to a value
above the 5-minute maximum and the enablement variable not false (on the
default-enabled starting record), the resolved period is clamped to
exactly 300000000 microseconds and afterglow stays enabled. -/
theorem claim_C2 (env : Env) (c : CollectorConfig) (s : String)
    (hp : env "ROX_AFTERGLOW_PERIOD" = some s)
    (hv : maxAfterglowPeriodMicros < atofMicros s)
    (hf : boolEnvVar env "ROX_ENABLE_AFTERGLOW" true = true)
    (he : c.enable_afterglow = true) :
    (HandleAfterglowEnvVars env c).afterglow_period_micros = 300000000 ∧
      (HandleAfterglowEnvVars env c).enable_afterglow = true := by
  simp only [HandleAfterglowEnvVars, hp, hf, he, not_true, if_false,
    if_pos hv]
  norm_num [maxAfterglowPeriodMicros]

/-- Witness for C2: ROX_AFTERGLOW_PERIOD=400 clamps to 300000000 with
afterglow enabled. -/
theorem claim_C2_witness :
    (HandleAfterglowEnvVars envAfterglow400
        defaultConfig).afterglow_period_micros = 300000000 ∧
      (HandleAfterglowEnvVars envAfterglow400
        defaultConfig).enable_afterglow = true :=
  claim_C2 envAfterglow400 defaultConfig "400" rfl (by decide) (by decide)
    rfl

/-- Claim C3: whenever the afterglow period resolves to a value that is
not positive, the final afterglow state is disabled, even when the
enablement variable is true. -/
theorem claim_C3 (env : Env) (c : CollectorConfig)
    (hv : (match env "ROX_AFTERGLOW_PERIOD" with
           | some s => atofMicros s
           | none => c.afterglow_period_micros) ≤ 0) :
    (HandleAfterglowEnvVars env c).enable_afterglow = false :=
  afterglow_nonpos_disables env c hv

/-- Witness for C3: ROX_AFTERGLOW_PERIOD=0 with the enablement variable
explicitly true still disables afterglow. -/
theorem claim_C3_witness :
    (HandleAfterglowEnvVars envAfterglowZero
      defaultConfig).enable_afterglow = false :=
  claim_C3 envAfterglowZero defaultConfig (by decide)

/-- Counterexample for C6: with the malformed value "abc" in the period
variable, the previous (default) period of 20000000 microseconds is not
retained — the C conversion yields 0 and the stored period becomes 0. -/
theorem claim_C6_counterexample :
    (HandleAfterglowEnvVars envAfterglowBad
        defaultConfig).afterglow_period_micros ≠
      defaultConfig.afterglow_period_micros := by
  decide

/-- Claim C6 as amended: a malformed (non-numeric) period value is
recoverable (resolution always completes), but the conversion yields 0
rather than retaining the previous value: the resolved period becomes 0
and afterglow is consequently disabled. -/
theorem claim_C6_amended (env : Env) (c : CollectorConfig) (s : String)
    (hp : env "ROX_AFTERGLOW_PERIOD" = some s)
    (hbad : parseDecSig s.data = none) :
    (HandleAfterglowEnvVars env c).afterglow_period_micros = 0 ∧
      (HandleAfterglowEnvVars env c).enable_afterglow = false := by
  have hz : atofMicros s = 0 := by
    simp [atofMicros, hbad]
  constructor
  · rw [afterglow_period_of_env env c s hp, hz]
    simp [maxAfterglowPeriodMicros]
  · exact afterglow_nonpos_disables env c (by simp [hp, hz])

/-- Witness for the amended C6 at the malformed value "abc". -/
theorem claim_C6_amended_witness :
    (HandleAfterglowEnvVars envAfterglowBad
        defaultConfig).afterglow_period_micros = 0 ∧
      (HandleAfterglowEnvVars envAfterglowBad
        defaultConfig).enable_afterglow = false :=
  claim_C6_amended envAfterglowBad defaultConfig "abc" rfl (by decide)

/-- Claim C7: when the quantiles variable is present the default list is
discarded entirely and the resolved list is exactly the successfully
parsed comma-separated tokens in encounter order (failing tokens are
skipped); the worked example "0.5,bad,0.99" resolves to {0.5, 0.99} in
that order. -/
theorem claim_C7 :
    (∀ (env : Env) (c : CollectorConfig) (v : String),
      env "ROX_COLLECTOR_CONNECTION_STATS_QUANTILES" = some v →
      (HandleConnectionStatsEnvVars env c).connection_stats_quantiles =
        (splitChar ',' v).filterMap stod) ∧
      (HandleConnectionStatsEnvVars envQuantilesMixed
          defaultConfig).connection_stats_quantiles =
        [1 / 2, 99 / 100] := by
  constructor
  · intro env c v hv
    simp only [HandleConnectionStatsEnvVars, hv]
    repeat' split <;> try simp [quantilesLoop_eq]
  · have h1 : (HandleConnectionStatsEnvVars envQuantilesMixed
        defaultConfig).connection_stats_quantiles =
        [decToRat 5 (-1), decToRat 99 (-2)] := rfl
    rw [h1]
    norm_num [decToRat]

/-- Witness for C7 at the worked example environment. -/
theorem claim_C7_witness :
    (HandleConnectionStatsEnvVars envQuantilesMixed
        defaultConfig).connection_stats_quantiles =
      (splitChar ',' "0.5,bad,0.99").filterMap stod :=
  claim_C7.1 envQuantilesMixed defaultConfig "0.5,bad,0.99" rfl

/-- Counterexample for C8: with the quantiles variable set to "2.5" the
resolved quantile list contains 2.5, which is outside [0,1] — the code
range-checks nothing. -/
theorem claim_C8_counterexample :
    ∃ q ∈ (HandleConnectionStatsEnvVars envQuantilesLarge
        defaultConfig).connection_stats_quantiles,
      ¬ (0 ≤ q ∧ q ≤ 1) := by
  have h1 : (HandleConnectionStatsEnvVars envQuantilesLarge
      defaultConfig).connection_stats_quantiles = [decToRat 25 (-1)] := rfl
  refine ⟨decToRat 25 (-1), by simp [h1], ?_⟩
  intro h
  have := h.2
  norm_num [decToRat] at this

/-- Claim C8 as amended: every element of the resolved quantile list lies
in [0,1] whenever the quantiles environment variable is absent (the
default list); user-supplied quantiles are stored without any range
check. -/
theorem claim_C8_amended (env : Env) (c : CollectorConfig)
    (h : env "ROX_COLLECTOR_CONNECTION_STATS_QUANTILES" = none) :
    ∀ q ∈ (HandleConnectionStatsEnvVars env c).connection_stats_quantiles,
      0 ≤ q ∧ q ≤ 1 := by
  have h1 : (HandleConnectionStatsEnvVars env c).connection_stats_quantiles
      = [decToRat 50 (-2), decToRat 90 (-2), decToRat 95 (-2)] := by
    simp only [HandleConnectionStatsEnvVars, h]
    repeat' split <;> try simp
  rw [h1]
  intro q hq
  simp only [List.mem_cons, List.not_mem_nil, or_false] at hq
  rcases hq with h | h | h <;> subst h <;>
    constructor <;> norm_num [decToRat]

/-- Witness for the amended C8 at the empty environment, instantiated at
the default quantile 0.50. -/
theorem claim_C8_amended_witness :
    0 ≤ decToRat 50 (-2) ∧ decToRat 50 (-2) ≤ 1 := by
  refine claim_C8_amended emptyEnv defaultConfig rfl _ ?_
  have h1 : (HandleConnectionStatsEnvVars emptyEnv
      defaultConfig).connection_stats_quantiles =
      [decToRat 50 (-2), decToRat 90 (-2), decToRat 95 (-2)] := rfl
  rw [h1]
  simp

/-- Claim C9: the resolved ignored-network list consists of exactly the
non-empty entries of the variable's comma-split value that parse, in
input order (malformed entries dropped, not placeheld); every successful
resolution stores exactly this list; and the worked example keeps exactly
the two valid prefixes, in order. -/
theorem claim_C9 :
    (∀ (env : Env) (v : String), env "ROX_IGNORE_NETWORKS" = some v →
      resolvedIgnoredNetworks env =
        ((splitChar ',' v).filter fun s => !s.isEmpty).filterMap
          IPNet.parse) ∧
      (∀ (env : Env) (h : String) (args : Option Args)
        (heur : CollectorConfig → Option CollectionMethod)
        (c cfg : CollectorConfig),
        InitCollectorConfig env h args heur c = .ok cfg →
        cfg.ignored_networks = resolvedIgnoredNetworks env) ∧
      resolvedIgnoredNetworks envIgnoreNets =
        [IPNet.v4 2851995648 16, IPNet.v6 fe80Val 10] := by
  refine ⟨?_, ?_, ?_⟩
  · intro env v hv
    simp only [resolvedIgnoredNetworks, stringListEnvVar, hv,
      processIgnoredNetworks, foldl_ignoredNetworksStep]
    simp
  · intro env h args heur c cfg hinit
    by_cases hh : h.isEmpty
    · simp [InitCollectorConfig, hh] at hinit
    · cases args with
      | none =>
          rw [init_ok_shape env h none heur c _ hh rfl] at hinit
          cases hinit
          rw [(storeHostConfig_fields _ _).2.2.1,
            (finishEnvPasses_fields _ _).2.2]
      | some a =>
          cases ha : applyArgs a { c with hostname := h } with
          | error e =>
              rw [init_error_shape env h (some a) heur c e hh ha] at hinit
              cases hinit
          | ok c1 =>
              rw [init_ok_shape env h (some a) heur c c1 hh ha] at hinit
              cases hinit
              rw [(storeHostConfig_fields _ _).2.2.1,
                (finishEnvPasses_fields _ _).2.2]
  · decide

/-- Witness for C9 at the worked example environment. -/
theorem claim_C9_witness :
    resolvedIgnoredNetworks envIgnoreNets =
      ((splitChar ',' "169.254.0.0/16,not-a-cidr,fe80::/10").filter
        fun s => !s.isEmpty).filterMap IPNet.parse :=
  claim_C9.1 envIgnoreNets "169.254.0.0/16,not-a-cidr,fe80::/10" rfl

end Collector
